import Mathlib

/-!
Verification development for the RunnerApp 7-week 5K training-plan repository.

The definitions below are a shallow embedding of the Python sources:
- `src/src/training_plan.py` (class `TrainingPlan`): the interval table,
  the two custom set-count lookup tables, `generate_detailed_sessions`,
  `load_logs`, `adjust_plan`, `predict_5k`;
- `src/analyze_training_plan.py`: the constant-speed and fatigue-adjusted
  distance models (`calculate_distances`, `calculate_distances_with_fatigue`).

Python floats are modelled as exact rationals (all constants in the source
are short decimal literals and the claims under study do not depend on
binary rounding); Python ints as `ℤ`/`ℕ`; JSON null as `Option.none`.
-/

namespace RunnerApp

/-- Python `int(x)` on a float truncates toward zero. -/
def pyInt (q : ℚ) : ℤ := if 0 ≤ q then ⌊q⌋ else -⌊-q⌋

/-- The final `interval_progress` table assigned in `TrainingPlan.__init__`
(21 pairs `(run_minutes, walk_minutes)`, one per session; the earlier
loop-built list is overwritten by this literal). -/
def interval_progress : List (ℚ × ℚ) :=
  [(1, 2), (2, 2), (3, 2),
   (4, 3), (5, 3), (8, 5),
   (6, 3), (8, 3), (10, 3),
   (6, 2), (28, 0), (7, 2),
   (5, 1.5), (32, 0), (8, 2),
   (4, 1), (35, 0), (9, 2),
   (4, 1.5), (20, 0), (2, 1)]

/-- The `custom_sets` dict inside the inner `compute_sets` of
`TrainingPlan.__init__` (sessions 1-9). -/
def customSetsInit (i : ℕ) : Option ℤ :=
  if i = 1 then some 16 else if i = 2 then some 13 else if i = 3 then some 10
  else if i = 4 then some 7 else if i = 5 then some 6 else if i = 6 then some 5
  else if i = 7 then some 6 else if i = 8 then some 5 else if i = 9 then some 4
  else none

/-- The `custom_sets` dict inside the inner `compute_sets` of
`TrainingPlan.generate_detailed_sessions` (sessions 1-9). -/
def customSetsGen (i : ℕ) : Option ℤ :=
  if i = 1 then some 16 else if i = 2 then some 12 else if i = 3 then some 10
  else if i = 4 then some 6 else if i = 5 then some 4 else if i = 6 then some 3
  else if i = 7 then some 5 else if i = 8 then some 3 else if i = 9 then some 2
  else none

/-- The inner `compute_sets(session_idx, run_min, week)` of
`TrainingPlan.generate_detailed_sessions`.  Mirrors the Python control flow:
continuous-run guards return 1; sessions 1-9 come from the lookup table;
the week-4 literal cases fall through (when no index matches) to the
week-5/6/else chain, whose `else` arm is the week-7 taper formula. -/
def computeSetsGen (session_idx : ℕ) (run_min : ℚ) (week : ℕ) : ℤ :=
  if run_min = 0 then 1
  else if session_idx ≤ interval_progress.length ∧
          (interval_progress.getD (session_idx - 1) (0, 0)).2 = 0 then 1
  else
    match customSetsGen session_idx with
    | some s => s
    | none =>
      if week = 4 ∧ session_idx = 10 then 6
      else if week = 4 ∧ session_idx = 11 then 1
      else if week = 4 ∧ session_idx = 12 then 5
      else if week = 5 then max 6 (pyInt (8 - ((session_idx : ℚ) - 13) * 0.5))
      else if week = 6 then max 5 (pyInt (7 - ((session_idx : ℚ) - 16) * 0.5))
      else max 3 (pyInt (5 - ((session_idx : ℚ) - 19) * 0.5))

/-- One record of the list built by `generate_detailed_sessions`. -/
structure SessionRec where
  session : ℕ
  week : ℕ
  day : ℕ
  day_name : String
  run_minutes : ℚ
  walk_minutes : ℚ
  sets : ℤ
  total_run_time : ℚ
  total_workout_time : ℚ
  workout_type : String
  hr_run : String
  hr_walk : String
  deriving Repr, DecidableEq, Inhabited

/-- The per-session `(run_min, walk_min, sets, workout_type)` computation of
the loop body of `generate_detailed_sessions`: the extrapolation branch for
`session_idx > len(interval_progress)` (odd = long intervals, even =
continuous with breaks) and the table branch otherwise. -/
def run_walk_sets_type (session_idx : ℕ) : ℚ × ℚ × ℤ × String :=
  if interval_progress.length < session_idx then
    let week := (session_idx - 1) / 3 + 1
    if session_idx % 2 = 1 then
      (10, 3, computeSetsGen session_idx 10 week, "long_intervals")
    else
      (((20 + (session_idx - interval_progress.length) * 2 : ℕ) : ℚ), 0, 1,
        "continuous_with_breaks")
  else
    let rw := interval_progress.getD (session_idx - 1) (0, 0)
    let week := (session_idx - 1) / 3 + 1
    (rw.1, rw.2, computeSetsGen session_idx rw.1 week,
      if rw.2 = 0 then "continuous_run" else "interval_training")

/-- The record appended for `session_idx` by the loop of
`generate_detailed_sessions` (week/day bookkeeping and the `total_run_time` /
`total_workout_time` formulas of lines 571-598 of `training_plan.py`). -/
def sessionRecord (session_idx : ℕ) : SessionRec :=
  let rwst := run_walk_sets_type session_idx
  let run_min := rwst.1
  let walk_min := rwst.2.1
  let sets := rwst.2.2.1
  let day_in_week := (session_idx - 1) % 3 + 1
  { session := session_idx
    week := (session_idx - 1) / 3 + 1
    day := if day_in_week = 1 then 1 else if day_in_week = 2 then 2 else 4
    day_name := ["Mon", "Tue", "Thu"].getD (day_in_week - 1) ""
    run_minutes := run_min
    walk_minutes := walk_min
    sets := sets
    total_run_time := run_min * (sets : ℚ)
    total_workout_time :=
      if 0 < walk_min then (run_min + walk_min) * (sets : ℚ) else run_min
    workout_type := rwst.2.2.2
    hr_run := if day_in_week = 2 then "140-160 bpm" else "130-150 bpm"
    hr_walk := "100-120 bpm" }

/-- `TrainingPlan.generate_detailed_sessions(session_count)`: the list of
records for sessions `1 .. session_count`. -/
def generate_detailed_sessions (session_count : ℕ) : List SessionRec :=
  (List.range session_count).map (fun i => sessionRecord (i + 1))

/-- The 4-tier speed-reduction step function of the inner
`get_adjusted_speed` in `calculate_distances_with_fatigue`
(`analyze_training_plan.py` lines 54-61). -/
def reduction_factor (interval_run_minutes : ℚ) : ℚ :=
  if interval_run_minutes ≤ 1 then 1
  else if interval_run_minutes ≤ 2.5 then 0.9
  else if interval_run_minutes ≤ 4 then 0.81
  else 0.729

/-- `get_adjusted_speed(interval_run_minutes, base_speed_kmh)`: returns the
pair `(adjusted_speed_kmh, adjusted_speed_m_per_min)`. -/
def get_adjusted_speed (interval_run_minutes base_speed_kmh : ℚ) : ℚ × ℚ :=
  (base_speed_kmh * reduction_factor interval_run_minutes,
    base_speed_kmh * reduction_factor interval_run_minutes * 1000 / 60)

/-- The `run_distance_m` assignment of `calculate_distances_with_fatigue`
(line 78): total run minutes times the fatigue-adjusted speed in m/min
(the source default is `base_run_speed_kmh = 12`). -/
def calculate_distances_with_fatigue_run (run_min total_run_min base_speed_kmh : ℚ) : ℚ :=
  total_run_min * (get_adjusted_speed run_min base_speed_kmh).2

/-- The `run_distance_m` assignment of `calculate_distances` (line 91):
total run minutes times a constant speed in m/min (source default
`run_speed_m_per_min = 200`). -/
def calculate_distances_run (total_run_min run_speed_m_per_min : ℚ) : ℚ :=
  total_run_min * run_speed_m_per_min

/-- One value of the JSON log mapping, as written by `log_week`
(`logged_at` is kept as an opaque string; `none` models JSON null). -/
structure LogEntry where
  pace : Option ℚ
  distance : Option ℚ
  recovery : Option ℤ
  skipped : Bool
  comments : String
  logged_at : String
  deriving Repr, DecidableEq, Inhabited

/-- The log mapping: week number to entry, in dict insertion order. -/
abbrev Logs := List (ℕ × LogEntry)

/-- Python truthiness of an optional float (`None` and `0.0` are falsy),
as used by `if data.get("pace")` and `if prev_pace` in `adjust_plan`. -/
def pyTruthy (o : Option ℚ) : Bool :=
  match o with
  | none => false
  | some p => if p = 0 then false else true

/-- Python `" | ".join(parts)`. -/
def joinStrings (sep : String) : List String → String
  | [] => ""
  | [s] => s
  | s :: rest => s ++ sep ++ joinStrings sep rest

/-- The `suggestions` list built by one iteration of `adjust_plan`
(`training_plan.py` lines 289-314): the skipped check, the recovery
threshold chain (note the `recovery > 8` test precedes `recovery >= 9`),
then the pace comparison against the previous week. -/
def suggestionsFor (logs : Logs) (week : ℕ) (data : LogEntry) : List String :=
  (if data.skipped then
    ["Reduce intensity (shorter intervals, more easy running)"] else [])
  ++ (match data.recovery with
      | none => []
      | some recovery =>
        if recovery < 4 then ["Add extra rest day or reduce intensity"]
        else if recovery < 6 then ["Consider easier pace or shorter workouts"]
        else if 8 < recovery then ["You\x27re recovering well! Maintain current intensity"]
        else if 9 ≤ recovery then ["Consider slightly increasing intensity or adding extra workout"]
        else [])
  ++ (if 1 < week ∧ pyTruthy data.pace then
        let prev_pace : Option ℚ :=
          match List.lookup (week - 1) logs with
          | some e => e.pace
          | none => none
        if pyTruthy prev_pace ∧ data.pace.getD 0 < prev_pace.getD 0 then
          ["Great pace improvement! Keep it up!"]
        else if pyTruthy prev_pace ∧ prev_pace.getD 0 * 1.1 < data.pace.getD 0 then
          ["Pace seems slower - focus on easy runs this week"]
        else []
      else [])

/-- `TrainingPlan.adjust_plan()`: for each logged week whose successor is
at most 7 and whose suggestion list is non-empty, emit
`(week + 1, " | ".join(suggestions))`. -/
def adjust_plan (logs : Logs) : List (ℕ × String) :=
  logs.filterMap (fun wd =>
    if 7 < wd.1 + 1 then none
    else
      let suggestions := suggestionsFor logs wd.1 wd.2
      if suggestions = [] then none
      else some (wd.1 + 1, joinStrings " | " suggestions))

/-- Outcome of `TrainingPlan.predict_5k()`: the two early-return messages,
the numeric prediction (week used, current estimate, projected time, weeks
remaining), or the `TypeError` raised when the recovery value of the
chosen week is null (`None >= 8` raises in Python 3). -/
inductive PredictResult where
  | noData
  | noPace
  | typeError
  | prediction (week : ℕ) (currentEstimate : ℚ) (projected : ℚ) (weeksRemaining : ℕ)
  deriving Repr, DecidableEq

/-- Python `max(pairs, key=lambda x: x[0])`: first maximal element wins
ties (on a dict the keys are unique, so ties cannot occur). -/
def maxByWeek (x : ℕ × LogEntry) (xs : List (ℕ × LogEntry)) : ℕ × LogEntry :=
  xs.foldl (fun acc y => if acc.1 < y.1 then y else acc) x

/-- `TrainingPlan.predict_5k()` (`training_plan.py` lines 321-358), up to
string formatting: empty logs and no-pace-data early returns, then the most
recent week with a pace value, `current = pace*5`,
`weeks_remaining = max(0, 7 - week)` (natural subtraction), the improvement
rate chosen from the recovery value, and the projected time
`current * (1-rate)^weeks_remaining`.  A null recovery reaches the Python
comparison `None >= 8`, which raises `TypeError`. -/
def predict_5k (logs : Logs) : PredictResult :=
  if logs = [] then .noData
  else
    let weeks_with_pace := logs.filter (fun wd => wd.2.pace ≠ none)
    match weeks_with_pace with
    | [] => .noPace
    | x :: xs =>
      let latest := maxByWeek x xs
      match latest.2.pace with
      | none => .typeError
      | some pace =>
        let current := pace * 5
        let weeks_remaining := 7 - latest.1
        match latest.2.recovery with
        | none => .typeError
        | some recovery =>
          let rate : ℚ := if 8 ≤ recovery then 0.03 else if recovery ≤ 4 then 0.015 else 0.025
          .prediction latest.1 current (current * (1 - rate) ^ weeks_remaining) weeks_remaining

/-- State of the log file as seen by `load_logs`: missing, unreadable
(`IOError` on open/read), syntactically invalid (`json.JSONDecodeError`),
or a valid log mapping. -/
inductive FileState where
  | absent
  | unreadable (msg : String)
  | malformed (raw : String)
  | valid (logs : Logs)

/-- `TrainingPlan.load_logs()` (`training_plan.py` lines 197-206): returns
the parsed mapping when the file exists and parses; returns the empty
mapping when the file is missing, and catches `json.JSONDecodeError` and
`IOError` (returning the empty mapping) otherwise.  The total return type
records that no exception escapes to the caller. -/
def load_logs (fs : FileState) : Logs :=
  match fs with
  | .absent => []
  | .unreadable _ => []
  | .malformed _ => []
  | .valid logs => logs

lemma length_generate_detailed_sessions (count : ℕ) :
    (generate_detailed_sessions count).length = count := by
  simp [generate_detailed_sessions]

lemma getD_generate_detailed_sessions (count i : ℕ) (hi : i < count) :
    (generate_detailed_sessions count).getD i default = sessionRecord (i + 1) := by
  simp [generate_detailed_sessions, List.getD, List.get?_map, List.get?_range, hi]

lemma mem_generate_detailed_sessions {count : ℕ} {r : SessionRec}
    (hr : r ∈ generate_detailed_sessions count) :
    ∃ i, i < count ∧ r = sessionRecord (i + 1) := by
  rcases List.mem_map.mp hr with ⟨i, hi, he⟩
  exact ⟨i, List.mem_range.mp hi, he.symm⟩

lemma sessionRecord_total_workout_time (n : ℕ) :
    (sessionRecord n).total_workout_time =
      if 0 < (sessionRecord n).walk_minutes then
        ((sessionRecord n).run_minutes + (sessionRecord n).walk_minutes) *
          ((sessionRecord n).sets : ℚ)
      else (sessionRecord n).run_minutes := rfl

/-- C1: for every count ≥ 1, `generate_detailed_sessions(count)` returns
exactly `count` records; the record at 0-based position `i` has `session`
field `i + 1` (so the session fields are exactly 1..count, strictly
increasing), `week = ((session - 1) / 3) + 1`, and a day slot that cycles
1..3 within each week, mapped to day numbers 1, 2, 4 and day names
Mon, Tue, Thu. -/
theorem generate_detailed_sessions_schedule (count : ℕ) (hcount : 1 ≤ count) :
    (generate_detailed_sessions count).length = count ∧
    ∀ i, i < count →
      ((generate_detailed_sessions count).getD i default).session = i + 1 ∧
      ((generate_detailed_sessions count).getD i default).week = i / 3 + 1 ∧
      ((generate_detailed_sessions count).getD i default).day = [1, 2, 4].getD (i % 3) 0 ∧
      ((generate_detailed_sessions count).getD i default).day_name =
        ["Mon", "Tue", "Thu"].getD (i % 3) "" := by
  refine ⟨length_generate_detailed_sessions count, ?_⟩
  intro i hi
  rw [getD_generate_detailed_sessions count i hi]
  refine ⟨rfl, rfl, ?_, rfl⟩
  have h3 : i % 3 = 0 ∨ i % 3 = 1 ∨ i % 3 = 2 := by omega
  rcases h3 with h | h | h <;> simp [sessionRecord, h]

/-- Witness for C1 at count = 5, position 3 (session 4, week 2, Mon). -/
theorem generate_detailed_sessions_schedule_witness :
    1 ≤ 5 ∧ (generate_detailed_sessions 5).length = 5 ∧
      ((generate_detailed_sessions 5).getD 3 default).session = 4 ∧
      ((generate_detailed_sessions 5).getD 3 default).week = 2 ∧
      ((generate_detailed_sessions 5).getD 3 default).day_name = "Mon" :=
  ⟨by decide, (generate_detailed_sessions_schedule 5 (by decide)).1,
    ((generate_detailed_sessions_schedule 5 (by decide)).2 3 (by decide)).1,
    ((generate_detailed_sessions_schedule 5 (by decide)).2 3 (by decide)).2.1,
    by decide⟩

/-- C2: every record produced by `generate_detailed_sessions(count)`,
count ≥ 1, satisfies `total_run_time = run_minutes * sets`;
`total_workout_time = run_minutes` when `walk_minutes = 0` and
`total_workout_time = (run_minutes + walk_minutes) * sets` when
`walk_minutes > 0`. -/
theorem generate_detailed_sessions_totals (count : ℕ) (hcount : 1 ≤ count)
    (r : SessionRec) (hr : r ∈ generate_detailed_sessions count) :
    r.total_run_time = r.run_minutes * (r.sets : ℚ) ∧
    (r.walk_minutes = 0 → r.total_workout_time = r.run_minutes) ∧
    (0 < r.walk_minutes →
      r.total_workout_time = (r.run_minutes + r.walk_minutes) * (r.sets : ℚ)) := by
  obtain ⟨i, hi, rfl⟩ := mem_generate_detailed_sessions hr
  refine ⟨rfl, ?_, ?_⟩
  · intro h
    rw [sessionRecord_total_workout_time, h]
    simp
  · intro h
    rw [sessionRecord_total_workout_time, if_pos h]

/-- Witness for C2 at count = 1 and the single record (session 1). -/
theorem generate_detailed_sessions_totals_witness :
    1 ≤ 1 ∧ sessionRecord 1 ∈ generate_detailed_sessions 1 ∧
      (sessionRecord 1).total_run_time = (sessionRecord 1).run_minutes * ((sessionRecord 1).sets : ℚ) :=
  ⟨by decide, by norm_num [generate_detailed_sessions, List.range_succ],
    (generate_detailed_sessions_totals 1 (by decide) (sessionRecord 1)
      (by norm_num [generate_detailed_sessions, List.range_succ])).1⟩

/-- C3: in `generate_detailed_sessions(21)`, session 1 has 16 sets,
session 9 has 2 sets, the continuous sessions 11, 14, 17 and 20 have 1 set
each, and session 6 has run 8.0, walk 5.0, 3 sets, total run time 24.0 and
total workout time 39.0. -/
theorem generate_detailed_sessions_values_at_21 :
    ((generate_detailed_sessions 21).getD 0 default).session = 1 ∧
    ((generate_detailed_sessions 21).getD 0 default).sets = 16 ∧
    ((generate_detailed_sessions 21).getD 8 default).session = 9 ∧
    ((generate_detailed_sessions 21).getD 8 default).sets = 2 ∧
    ((generate_detailed_sessions 21).getD 10 default).session = 11 ∧
    ((generate_detailed_sessions 21).getD 10 default).sets = 1 ∧
    ((generate_detailed_sessions 21).getD 13 default).session = 14 ∧
    ((generate_detailed_sessions 21).getD 13 default).sets = 1 ∧
    ((generate_detailed_sessions 21).getD 16 default).session = 17 ∧
    ((generate_detailed_sessions 21).getD 16 default).sets = 1 ∧
    ((generate_detailed_sessions 21).getD 19 default).session = 20 ∧
    ((generate_detailed_sessions 21).getD 19 default).sets = 1 ∧
    ((generate_detailed_sessions 21).getD 5 default).session = 6 ∧
    ((generate_detailed_sessions 21).getD 5 default).run_minutes = 8 ∧
    ((generate_detailed_sessions 21).getD 5 default).walk_minutes = 5 ∧
    ((generate_detailed_sessions 21).getD 5 default).sets = 3 ∧
    ((generate_detailed_sessions 21).getD 5 default).total_run_time = 24 ∧
    ((generate_detailed_sessions 21).getD 5 default).total_workout_time = 39 := by
  rw [getD_generate_detailed_sessions 21 0 (by norm_num),
    getD_generate_detailed_sessions 21 8 (by norm_num),
    getD_generate_detailed_sessions 21 10 (by norm_num),
    getD_generate_detailed_sessions 21 13 (by norm_num),
    getD_generate_detailed_sessions 21 16 (by norm_num),
    getD_generate_detailed_sessions 21 19 (by norm_num),
    getD_generate_detailed_sessions 21 5 (by norm_num)]
  norm_num [sessionRecord, run_walk_sets_type, computeSetsGen, customSetsGen,
    interval_progress]

lemma reduction_factor_nonneg (r : ℚ) : 0 ≤ reduction_factor r := by
  unfold reduction_factor
  split_ifs <;> norm_num

lemma reduction_factor_le_one (r : ℚ) : reduction_factor r ≤ 1 := by
  unfold reduction_factor
  split_ifs <;> norm_num

lemma reduction_factor_antitone {r1 r2 : ℚ} (h : r1 ≤ r2) :
    reduction_factor r2 ≤ reduction_factor r1 := by
  unfold reduction_factor
  split_ifs <;> linarith

lemma customSetsGen_one_le {i : ℕ} {s : ℤ} (h : customSetsGen i = some s) : 1 ≤ s := by
  unfold customSetsGen at h
  split_ifs at h <;> injection h with h <;> omega

lemma one_le_computeSetsGen (idx : ℕ) (run : ℚ) (week : ℕ) :
    1 ≤ computeSetsGen idx run week := by
  unfold computeSetsGen
  rcases hc : customSetsGen idx with _ | s
  · simp only [hc]
    split_ifs <;>
      first
      | norm_num
      | exact le_trans (by norm_num) (le_max_left _ _)
  · simp only [hc]
    split_ifs
    · norm_num
    · norm_num
    · exact customSetsGen_one_le hc

lemma one_le_sessionRecord_sets (n : ℕ) : 1 ≤ (sessionRecord n).sets := by
  show 1 ≤ (run_walk_sets_type n).2.2.1
  unfold run_walk_sets_type
  split_ifs with h1 h2
  · show 1 ≤ computeSetsGen n 10 ((n - 1) / 3 + 1)
    exact one_le_computeSetsGen _ _ _
  · show (1 : ℤ) ≤ 1
    norm_num
  · show 1 ≤ computeSetsGen n (interval_progress.getD (n - 1) (0, 0)).1 ((n - 1) / 3 + 1)
    exact one_le_computeSetsGen _ _ _

/-- C4: the 4-tier fatigue model is non-increasing in the single-interval
run duration: for a nonnegative base speed and total run time, the adjusted
run distance with 5-minute intervals is at most the one with 0.5-minute
intervals, and for any two durations the longer one never yields a higher
adjusted speed. -/
theorem fatigue_model_monotone (base_speed_kmh total_run_min : ℚ)
    (hbase : 0 ≤ base_speed_kmh) (htot : 0 ≤ total_run_min) :
    calculate_distances_with_fatigue_run 5 total_run_min base_speed_kmh ≤
      calculate_distances_with_fatigue_run 0.5 total_run_min base_speed_kmh ∧
    ∀ r1 r2 : ℚ, r1 ≤ r2 →
      (get_adjusted_speed r2 base_speed_kmh).1 ≤ (get_adjusted_speed r1 base_speed_kmh).1 := by
  constructor
  · have h5 : reduction_factor 5 = 0.729 := by norm_num [reduction_factor]
    have h05 : reduction_factor 0.5 = 1 := by norm_num [reduction_factor]
    simp only [calculate_distances_with_fatigue_run, get_adjusted_speed, h5, h05]
    nlinarith [mul_nonneg htot hbase]
  · intro r1 r2 h
    simp only [get_adjusted_speed]
    exact mul_le_mul_of_nonneg_left (reduction_factor_antitone h) hbase

/-- Witness for C4 at base speed 12 km/h and total run time 24 minutes
(speed comparison instantiated at durations 0.5 and 5). -/
theorem fatigue_model_monotone_witness :
    (0 : ℚ) ≤ 12 ∧ (0 : ℚ) ≤ 24 ∧
      calculate_distances_with_fatigue_run 5 24 12 ≤
        calculate_distances_with_fatigue_run 0.5 24 12 ∧
      (get_adjusted_speed 5 12).1 ≤ (get_adjusted_speed 0.5 12).1 :=
  ⟨by norm_num, by norm_num,
    (fatigue_model_monotone 12 24 (by norm_num) (by norm_num)).1,
    (fatigue_model_monotone 12 24 (by norm_num) (by norm_num)).2 0.5 5 (by norm_num)⟩

/-- C5: for every record of `generate_detailed_sessions` with
`run_minutes > 1.0` and any nonnegative base speed used in both models
(`base_speed_kmh` km/h for the fatigue model, the same speed
`base_speed_kmh * 1000 / 60` in m/min for the constant model, matching the
source defaults 12 km/h and 200 m/min), the constant-speed run distance is
at least the fatigue-adjusted run distance. -/
theorem constant_speed_ge_fatigue (count : ℕ) (r : SessionRec) (base_speed_kmh : ℚ)
    (hr : r ∈ generate_detailed_sessions count) (hrun : 1 < r.run_minutes)
    (hbase : 0 ≤ base_speed_kmh) :
    calculate_distances_with_fatigue_run r.run_minutes r.total_run_time base_speed_kmh ≤
      calculate_distances_run r.total_run_time (base_speed_kmh * 1000 / 60) := by
  obtain ⟨i, hi, rfl⟩ := mem_generate_detailed_sessions hr
  have hsets : (1 : ℤ) ≤ (sessionRecord (i + 1)).sets := one_le_sessionRecord_sets _
  have htot : (0 : ℚ) ≤ (sessionRecord (i + 1)).total_run_time := by
    have e : (sessionRecord (i + 1)).total_run_time =
        (sessionRecord (i + 1)).run_minutes * ((sessionRecord (i + 1)).sets : ℚ) := rfl
    rw [e]
    have h0 : (0 : ℚ) ≤ (sessionRecord (i + 1)).run_minutes :=
      le_of_lt (lt_trans zero_lt_one hrun)
    have h1 : (0 : ℚ) ≤ ((sessionRecord (i + 1)).sets : ℚ) := by
      exact_mod_cast le_trans (by norm_num) hsets
    exact mul_nonneg h0 h1
  have hf1 : reduction_factor (sessionRecord (i + 1)).run_minutes ≤ 1 :=
    reduction_factor_le_one _
  simp only [calculate_distances_with_fatigue_run, calculate_distances_run,
    get_adjusted_speed]
  nlinarith [mul_nonneg htot hbase, reduction_factor_nonneg (sessionRecord (i + 1)).run_minutes]

/-- Witness for C5: session 2 of `generate_detailed_sessions(2)` (a
2-minute-interval session) at the default base speed 12 km/h. -/
theorem constant_speed_ge_fatigue_witness :
    sessionRecord 2 ∈ generate_detailed_sessions 2 ∧
      (1 : ℚ) < (sessionRecord 2).run_minutes ∧ (0 : ℚ) ≤ 12 ∧
      calculate_distances_with_fatigue_run (sessionRecord 2).run_minutes
          (sessionRecord 2).total_run_time 12 ≤
        calculate_distances_run (sessionRecord 2).total_run_time (12 * 1000 / 60) :=
  ⟨by norm_num [generate_detailed_sessions, List.range_succ],
    by norm_num [sessionRecord, run_walk_sets_type, interval_progress],
    by norm_num,
    constant_speed_ge_fatigue 2 (sessionRecord 2) 12
      (by norm_num [generate_detailed_sessions, List.range_succ])
      (by norm_num [sessionRecord, run_walk_sets_type, interval_progress])
      (by norm_num)⟩

lemma toList_append (a b : String) : (a ++ b).toList = a.toList ++ b.toList := rfl

lemma mem_infix_joinStrings (sep : String) (l : List String) (s : String) (h : s ∈ l) :
    s.toList <:+: (joinStrings sep l).toList := by
  induction l with
  | nil => cases h
  | cons x rest ih =>
    rcases rest with _ | ⟨y, rest'⟩
    · have hx : s = x := by simpa using h
      subst hx
      exact List.infix_refl _
    · rcases List.mem_cons.mp h with rfl | h'
      · refine ⟨[], (sep ++ joinStrings sep (y :: rest')).toList, ?_⟩
        simp [joinStrings, toList_append, List.append_assoc]
      · obtain ⟨u, v, huv⟩ := ih h'
        refine ⟨(x ++ sep).toList ++ u, v, ?_⟩
        simp only [joinStrings, toList_append]
        rw [← huv]
        simp [List.append_assoc]

/-- Log entry with only a recovery score, as used in concrete scenarios. -/
def entryWithRecovery (r : ℤ) : LogEntry :=
  { pace := none, distance := none, recovery := some r, skipped := false,
    comments := "", logged_at := "" }

/-- Log entry with only a pace value (recovery is null, exactly what
`log_week(w, pace=p)` writes when no recovery is passed). -/
def paceOnlyEntry (p : ℚ) : LogEntry :=
  { pace := some p, distance := none, recovery := none, skipped := false,
    comments := "", logged_at := "" }

/-- C6 counterexample: logging week 1 with recovery 9 yields for week 2
exactly the maintain-current-intensity suggestion; the
increase-intensity/extra-workout advice of the claim is not contained in
that text (the `recovery >= 9` branch is unreachable behind
`recovery > 8`). -/
theorem adjust_plan_recovery_nine_counterexample :
    adjust_plan [(1, entryWithRecovery 9)] =
      [(2, "You\x27re recovering well! Maintain current intensity")] ∧
    ¬ ("Consider slightly increasing intensity or adding extra workout".toList <:+:
        "You\x27re recovering well! Maintain current intensity".toList) := by
  constructor
  · rfl
  · decide

/-- C6 (amended): for every stored log mapping and every logged week `w`
with `w + 1 ≤ 7` whose recovery value is at least 9, `adjust_plan()`
contains an entry for week `w + 1` whose suggestion text includes the
maintain-current-intensity advice (the `recovery > 8` branch; the
increase-intensity branch guarded by `recovery >= 9` is dead code). -/
theorem adjust_plan_high_recovery (logs : Logs) (w : ℕ) (e : LogEntry) (rec : ℤ)
    (hmem : (w, e) ∈ logs) (hrec : e.recovery = some rec) (h9 : 9 ≤ rec)
    (hw : w + 1 ≤ 7) :
    ∃ text, (w + 1, text) ∈ adjust_plan logs ∧
      "You\x27re recovering well! Maintain current intensity".toList <:+: text.toList := by
  have hmaint : "You\x27re recovering well! Maintain current intensity" ∈
      suggestionsFor logs w e := by
    unfold suggestionsFor
    simp only [hrec]
    have h1 : ¬ rec < 4 := by omega
    have h2 : ¬ rec < 6 := by omega
    have h3 : 8 < rec := by omega
    rw [if_neg h1, if_neg h2, if_pos h3]
    simp
  refine ⟨joinStrings " | " (suggestionsFor logs w e), ?_,
    mem_infix_joinStrings _ _ _ hmaint⟩
  apply List.mem_filterMap.mpr
  refine ⟨(w, e), hmem, ?_⟩
  have hnot : ¬ 7 < w + 1 := by omega
  have hne : suggestionsFor logs w e ≠ [] := by
    intro hnil
    rw [hnil] at hmaint
    cases hmaint
  dsimp only
  rw [if_neg hnot, if_neg hne]

/-- Witness for C6 (amended) at the one-week log with recovery 9. -/
theorem adjust_plan_high_recovery_witness :
    (1, entryWithRecovery 9) ∈ [(1, entryWithRecovery 9)] ∧
    (entryWithRecovery 9).recovery = some 9 ∧ (9 : ℤ) ≤ 9 ∧ 1 + 1 ≤ 7 ∧
    ∃ text, (1 + 1, text) ∈ adjust_plan [(1, entryWithRecovery 9)] ∧
      "You\x27re recovering well! Maintain current intensity".toList <:+: text.toList :=
  ⟨by decide, rfl, by decide, by decide,
    adjust_plan_high_recovery [(1, entryWithRecovery 9)] 1 (entryWithRecovery 9) 9
      (by decide) rfl (by decide) (by decide)⟩

/-- C7 (code bug): on a log whose most recent pace week has a null
recovery value — exactly what `log_week(week, pace=...)` writes when no
recovery is given — `predict_5k` reaches the Python comparison
`None >= 8` and raises `TypeError` instead of applying the default 2.5%
weekly improvement rate. -/
theorem predict_5k_null_recovery_raises :
    predict_5k [(3, paceOnlyEntry 6)] = .typeError ∧
    predict_5k [(3, { paceOnlyEntry 6 with recovery := some 5 })] =
      .prediction 3 (6 * 5) (6 * 5 * (1 - 0.025) ^ (7 - 3)) (7 - 3) := by
  constructor
  · rfl
  · rfl

/-- C9: `load_logs` returns the empty mapping when the log file is absent,
unreadable (`IOError`) or malformed (`json.JSONDecodeError`), and the
parsed mapping when it is valid; its total return type witnesses that no
exception escapes to the caller. -/
theorem load_logs_fails_soft :
    load_logs .absent = [] ∧
    (∀ msg, load_logs (.unreadable msg) = []) ∧
    (∀ raw, load_logs (.malformed raw) = []) ∧
    (∀ logs, load_logs (.valid logs) = logs) :=
  ⟨rfl, fun _ => rfl, fun _ => rfl, fun _ => rfl⟩

/-- C10: on a non-empty log in which no week has a non-null pace value,
`predict_5k` returns the no-pace-data message, and on an empty log it
returns the not-enough-data message; in both cases it returns normally. -/
theorem predict_5k_no_pace_messages (logs : Logs) (hne : logs ≠ [])
    (hnp : ∀ p ∈ logs, (p : ℕ × LogEntry).2.pace = none) :
    predict_5k logs = .noPace ∧ predict_5k [] = .noData := by
  constructor
  · unfold predict_5k
    rw [if_neg hne]
    have hfilter : logs.filter (fun wd => wd.2.pace ≠ none) = [] := by
      rw [List.filter_eq_nil]
      intro a ha
      simp [hnp a ha]
    rw [hfilter]
  · rfl

/-- Witness for C10 at a one-week log with recovery but no pace. -/
theorem predict_5k_no_pace_messages_witness :
    ([(1, entryWithRecovery 6)] : Logs) ≠ [] ∧
    (∀ p ∈ ([(1, entryWithRecovery 6)] : Logs), (p : ℕ × LogEntry).2.pace = none) ∧
    predict_5k [(1, entryWithRecovery 6)] = .noPace :=
  ⟨by decide, by decide,
    (predict_5k_no_pace_messages [(1, entryWithRecovery 6)] (by decide) (by decide)).1⟩

/-- C8 counterexample: the two `custom_sets` tables disagree at index 4 as
well (7 in the `__init__` table, 6 in the `generate_detailed_sessions`
table), so they do not agree at all of 1, 3, 4. -/
theorem custom_sets_tables_index4_counterexample :
    customSetsInit 4 = some 7 ∧ customSetsGen 4 = some 6 ∧
      customSetsInit 4 ≠ customSetsGen 4 := by decide

/-- C8 (amended): both `custom_sets` tables are defined exactly on indices
1..9, and they differ exactly at the indices 2, 4, 5, 6, 7, 8 and 9 — that
is, they agree only at indices 1 and 3. -/
theorem custom_sets_tables_compare :
    (∀ i, (customSetsInit i).isSome = true ↔ 1 ≤ i ∧ i ≤ 9) ∧
    (∀ i, (customSetsGen i).isSome = true ↔ 1 ≤ i ∧ i ≤ 9) ∧
    (∀ i, customSetsInit i ≠ customSetsGen i ↔ i ∈ [2, 4, 5, 6, 7, 8, 9]) := by
  have hinit : ∀ i, 10 ≤ i → customSetsInit i = none := by
    intro i hi
    unfold customSetsInit
    split_ifs <;> first | rfl | (exfalso; omega)
  have hgen : ∀ i, 10 ≤ i → customSetsGen i = none := by
    intro i hi
    unfold customSetsGen
    split_ifs <;> first | rfl | (exfalso; omega)
  refine ⟨?_, ?_, ?_⟩ <;> intro i <;> rcases Nat.lt_or_ge i 10 with h | h
  · interval_cases i <;> decide
  · rw [hinit i h]
    simp only [Option.isSome_none, Bool.false_eq_true, false_iff]
    omega
  · interval_cases i <;> decide
  · rw [hgen i h]
    simp only [Option.isSome_none, Bool.false_eq_true, false_iff]
    omega
  · interval_cases i <;> decide
  · rw [hinit i h, hgen i h]
    simp only [ne_eq, not_true_eq_false, false_iff, List.mem_cons,
      List.mem_nil_iff, or_false]
    omega

end RunnerApp
